import Mathlib

set_option maxHeartbeats 1000000

/-!
Verification development for the pose-to-actuator control pipeline of the
obniz tf-imitation demo (src/demos/camera.js and src/demos/demo_util.js).

Embedding conventions: JavaScript numbers that stay in exact arithmetic are
modelled as rationals (keypoint coordinates, confidence scores, buffered
samples, servo state); geometric angle computations that pass through
`Math.sqrt`/`Math.acos` are modelled over the reals.  Buffered angle samples
are modelled as integers where the actuator loop is concerned (the actuator
logic is uniform in the sample values; the integer fragment is enough to
express every claim and, crucially, the JavaScript default-sort behaviour of
`Array.prototype.sort`, which compares the decimal string representations of
its elements).
-/

/-- A PoseNet keypoint: `position.x`, `position.y` and `score`
(src/demos/demo_util.js keypoint usage). -/
structure Keypoint where
  x : ℚ
  y : ℚ
  score : ℚ
deriving DecidableEq

/-- `keypoints[i]` indexing.  PoseNet poses always carry 17 keypoints; the
default keypoint (score 0) stands for an index beyond the list. -/
def kpAt (kps : List Keypoint) (i : ℕ) : Keypoint := kps.getD i ⟨0, 0, 0⟩

/-- The `{left: ..., right: ...}` result object of the gate functions. -/
structure LR where
  left : Bool
  right : Bool
deriving DecidableEq

/-- `existsArms` from src/demos/demo_util.js lines 188-207: an if/else-if
chain over the scores of keypoints 5 (leftShoulder), 6 (rightShoulder),
7 (leftElbow), 8 (rightElbow), each compared strictly against
`minConfidence`. -/
def existsArms (kps : List Keypoint) (minConfidence : ℚ) : LR :=
  if (kpAt kps 5).score > minConfidence ∧ (kpAt kps 6).score > minConfidence ∧
      (kpAt kps 7).score > minConfidence ∧ (kpAt kps 8).score > minConfidence then
    ⟨true, true⟩
  else if (kpAt kps 5).score > minConfidence ∧ (kpAt kps 6).score > minConfidence ∧
      (kpAt kps 7).score > minConfidence then
    ⟨true, false⟩
  else if (kpAt kps 5).score > minConfidence ∧ (kpAt kps 6).score > minConfidence ∧
      (kpAt kps 8).score > minConfidence then
    ⟨false, true⟩
  else
    ⟨false, false⟩

/-- `existWritst` from src/demos/demo_util.js lines 209-219 (source spelling
kept): keypoints 9 (leftWrist) and 10 (rightWrist) against `minConfidence`. -/
def existWritst (kps : List Keypoint) (minConfidence : ℚ) : LR :=
  if (kpAt kps 9).score > minConfidence ∧ (kpAt kps 10).score > minConfidence then
    ⟨true, true⟩
  else if (kpAt kps 9).score > minConfidence then
    ⟨true, false⟩
  else if (kpAt kps 10).score > minConfidence then
    ⟨false, true⟩
  else
    ⟨false, false⟩

/-- `existsEyeAndNose` from src/demos/demo_util.js lines 221-233: keypoints
0 (nose), 1 (leftEye), 2 (rightEye) against `minConfidence`. -/
def existsEyeAndNose (kps : List Keypoint) (minConfidence : ℚ) : Bool :=
  if (kpAt kps 0).score > minConfidence ∧ (kpAt kps 1).score > minConfidence ∧
      (kpAt kps 2).score > minConfidence then
    true
  else
    false

/-- A PoseNet pose: overall `score` plus the keypoint list
(src/demos/camera.js pose usage). -/
structure Pose where
  score : ℚ
  keypoints : List Keypoint
deriving DecidableEq

/-- Minimum of a list of rationals (first element seeds the fold). -/
def listMinQ : List ℚ → ℚ
  | [] => 0
  | x :: xs => xs.foldl min x

/-- Maximum of a list of rationals (first element seeds the fold). -/
def listMaxQ : List ℚ → ℚ
  | [] => 0
  | x :: xs => xs.foldl max x

/-- Modelled from the spec: `posenet.getBoundingBox` is an external library
collaborator (not under src/); the spec describes the bounding box as the
componentwise min/max over the pose's keypoint coordinates, with area
`(maxX - minX) * (maxY - minY)`.  The multiplication below is the body of
`getBoundingBoxSize` from src/demos/demo_util.js lines 93-96. -/
def getBoundingBoxSize (kps : List Keypoint) : ℚ :=
  (listMaxQ (kps.map (·.x)) - listMinQ (kps.map (·.x))) *
    (listMaxQ (kps.map (·.y)) - listMinQ (kps.map (·.y)))

/-- Bounding-box area of a pose (abbreviation used in theorem statements). -/
def bboxArea (p : Pose) : ℚ := getBoundingBoxSize p.keypoints

/-- The confident-pose filter from src/demos/camera.js lines 275-280:
`poses.forEach(elm => if (elm.score >= minPoseConfidence) push(elm))`. -/
def confidentPoses (poses : List Pose) (minPoseConfidence : ℚ) : List Pose :=
  poses.filter (fun p => minPoseConfidence ≤ p.score)

/-- One step of the largest-pose loop from src/demos/camera.js lines 294-303:
`if (size > maxSize) { maxSize = size; maxPose = pose; }`.  The accumulator is
the pair `(maxSize, maxPose)`. -/
def selectStep (acc : ℚ × Option Pose) (p : Pose) : ℚ × Option Pose :=
  if getBoundingBoxSize p.keypoints > acc.1 then (getBoundingBoxSize p.keypoints, some p)
  else acc

/-- The largest-pose selection loop from src/demos/camera.js lines 294-303,
started from `maxSize = 0`, `maxPose = undefined`. -/
def selectMaxPose (poses : List Pose) : Option Pose :=
  (poses.foldl selectStep (0, none)).2

/-- Insert `x` into a sorted list: skip over every `y` with `lt y x`
(stable insertion for a strict comparison, as JavaScript's stable sort). -/
def insertSorted (lt : α → α → Bool) (x : α) : List α → List α
  | [] => [x]
  | y :: ys => if lt y x then y :: insertSorted lt x ys else x :: y :: ys

/-- Stable insertion sort parametrised by a strict comparison. -/
def insertionSort (lt : α → α → Bool) : List α → List α
  | [] => []
  | x :: xs => insertSorted lt x (insertionSort lt xs)

/-- Decimal digits of a natural number, most significant first; the first
argument is recursion fuel (any fuel at least the number itself is enough). -/
def natDigitsAux : ℕ → ℕ → List ℕ
  | 0, _ => []
  | fuel + 1, n => if n = 0 then [] else natDigitsAux fuel (n / 10) ++ [n % 10]

/-- The UTF-16 code units of the ECMAScript `ToString` of an integer: code
unit 45 for the minus sign of a negative number, then the code units
48..57 of the decimal digits. -/
def jsCodeUnits (i : ℤ) : List ℕ :=
  if i < 0 then 45 :: (natDigitsAux i.natAbs i.natAbs).map (· + 48)
  else if i = 0 then [48]
  else (natDigitsAux i.natAbs i.natAbs).map (· + 48)

/-- Lexicographic comparison of code-unit sequences: exactly the abstract
relational comparison ECMAScript applies to two strings (a strict prefix is
smaller; otherwise the first differing code unit decides). -/
def lexLt : List ℕ → List ℕ → Bool
  | [], [] => false
  | [], _ :: _ => true
  | _ :: _, [] => false
  | a :: as, b :: bs => if a < b then true else if b < a then false else lexLt as bs

/-- The comparison performed by `Array.prototype.sort` with no comparator:
both elements are converted to strings and compared by UTF-16 code units. -/
def jsDefaultSortLt (a b : ℤ) : Bool := lexLt (jsCodeUnits a) (jsCodeUnits b)

/-- `median` from src/demos/camera.js lines 431-440.
`half = (list.length / 2) | 0`; `sorted = list.slice(); sorted.sort()` — the
default sort, i.e. lexicographic on the elements' decimal string
representations; odd length returns `sorted[half]`, even length returns
`(sorted[half - 1] + sorted[half]) / 2`.  (The function is only invoked on
non-empty buffers; out-of-range indexing defaults to 0 here.) -/
def median (list : List ℤ) : ℚ :=
  let half : ℕ := list.length / 2
  let sorted := insertionSort jsDefaultSortLt list
  if list.length % 2 ≠ 0 then ((sorted.getD half 0 : ℤ) : ℚ)
  else (((sorted.getD (half - 1) 0 : ℤ) : ℚ) + ((sorted.getD half 0 : ℤ) : ℚ)) / 2

/-- Follows the spec's words, for comparison with `median`: "sort ascending;
for even length, average the two middle values; for odd length, take the
middle value" — ascending here meaning ascending numeric order. -/
def specMedian (list : List ℤ) : ℚ :=
  let half : ℕ := list.length / 2
  let sorted := insertionSort (fun a b => decide (a < b)) list
  if list.length % 2 ≠ 0 then ((sorted.getD half 0 : ℤ) : ℚ)
  else (((sorted.getD (half - 1) 0 : ℤ) : ℚ) + ((sorted.getD half 0 : ℤ) : ℚ)) / 2

/-- One tick of the `setInterval` callback installed by `startServo`
(src/demos/camera.js lines 418-429).  State in: the servo's `status` and the
shared `angles` buffer.  Out: the new `status`, the command passed to
`servo.angle` (if any), and the buffer after the tick.  The callback never
assigns `servo.status` (the `moveServoTo` call that used to is commented
out), and `angles.splice(0)` clears the buffer whenever it was non-empty. -/
def startServoTick (status : ℚ) (angles : List ℤ) : ℚ × Option ℚ × List ℤ :=
  if angles.length > 0 then
    let med := median angles
    if |status - med| > 5 then (status, some med, [])
    else (status, none, [])
  else (status, none, angles)

/-- `moveServoTo` from src/demos/camera.js lines 397-416 (dead code: its only
call site is commented out; the parameter named `to` in the source is `tgt`
here, `to` being reserved in Lean).  A target outside [0, 180] is rejected — the
function returns without commanding anything.  Otherwise the servo ramps in
integer steps from `status` towards `to`, commanding each step and updating
`status`; the result is the list of commanded angles and the final status. -/
def moveServoTo (status : ℤ) (tgt : ℚ) : List ℤ × ℤ :=
  if tgt < 0 ∨ 180 < tgt then ([], status)
  else if (status : ℚ) < tgt then
    ((List.range (⌊tgt⌋ - status + 1).toNat).map (fun i => status + i), ⌊tgt⌋)
  else if tgt < (status : ℚ) then
    ((List.range (status - ⌈tgt⌉ + 1).toNat).map (fun i => status - i), ⌈tgt⌉)
  else ([], status)

/-! Geometry over the reals, with JavaScript non-finite values explicit. -/

/-- A JavaScript number as produced by the angle computations: a finite real,
NaN, or a signed infinity. -/
inductive JsVal where
  | fin : ℝ → JsVal
  | nan : JsVal
  | inf : JsVal
  | ninf : JsVal

/-- JavaScript `+` on the values above: NaN propagates, opposite infinities
give NaN. -/
def jsAdd : JsVal → JsVal → JsVal
  | .fin a, .fin b => .fin (a + b)
  | .nan, _ => .nan
  | _, .nan => .nan
  | .inf, .ninf => .nan
  | .ninf, .inf => .nan
  | .inf, _ => .inf
  | _, .inf => .inf
  | .ninf, _ => .ninf
  | _, .ninf => .ninf

/-- JavaScript `-` on the values above: NaN propagates, equal infinities
give NaN. -/
def jsSub : JsVal → JsVal → JsVal
  | .fin a, .fin b => .fin (a - b)
  | .nan, _ => .nan
  | _, .nan => .nan
  | .inf, .inf => .nan
  | .ninf, .ninf => .nan
  | .inf, _ => .inf
  | .ninf, _ => .ninf
  | _, .inf => .ninf
  | _, .ninf => .inf

/-- JavaScript `<` on the values above: every comparison involving NaN is
false. -/
def jsLt : JsVal → JsVal → Prop
  | .fin a, .fin b => a < b
  | .ninf, .fin _ => True
  | .fin _, .inf => True
  | .ninf, .inf => True
  | _, _ => False

/-- A 2D vector: the `{x, y}` objects built throughout demo_util.js. -/
abbrev Vec2 := ℝ × ℝ

/-- `norm` from src/demos/demo_util.js lines 389-391
(`Math.sqrt(v.x * v.x + v.y * v.y)`); named `normV` because `norm` is taken
by Mathlib. -/
noncomputable def normV (v : Vec2) : ℝ := Real.sqrt (v.1 * v.1 + v.2 * v.2)

/-- `rotateVector` from src/demos/demo_util.js lines 372-380:
`rad = degree * (π / 180)`, then the standard rotation matrix. -/
noncomputable def rotateVector (v : Vec2) (degree : ℝ) : Vec2 :=
  (v.1 * Real.cos (degree * (Real.pi / 180)) - v.2 * Real.sin (degree * (Real.pi / 180)),
    v.1 * Real.sin (degree * (Real.pi / 180)) + v.2 * Real.cos (degree * (Real.pi / 180)))

open Classical in
/-- `calculateAngle` from src/demos/demo_util.js lines 382-387:
`acos(dot / (norm(a) * norm(b))) * 180 / π`.  The source has no zero-norm
guard: in exact arithmetic a zero denominator forces a zero numerator (a zero
norm means a zero vector, hence a zero dot product), so the JavaScript
division yields `0/0 = NaN` and `Math.acos(NaN) = NaN`, made explicit here;
for a nonzero denominator the Cauchy-Schwarz inequality keeps the acos
argument inside [-1, 1], so the result is the finite angle. -/
noncomputable def calculateAngle (vectorA vectorB : Vec2) : JsVal :=
  if normV vectorA * normV vectorB = 0 then .nan
  else .fin (Real.arccos ((vectorA.1 * vectorB.1 + vectorA.2 * vectorB.2) /
    (normV vectorA * normV vectorB)) * 180 / Real.pi)

/-- The position of a keypoint `a` minus the position of `b`, as in the
`{x: a.x - b.x, y: a.y - b.y}` objects of demo_util.js. -/
noncomputable def subV (a b : Keypoint) : Vec2 :=
  (((a.x : ℝ)) - ((b.x : ℝ)), ((a.y : ℝ)) - ((b.y : ℝ)))

/-- `getShoulderLine` from src/demos/demo_util.js lines 304-310:
leftShoulder (5) − rightShoulder (6). -/
noncomputable def getShoulderLine (kps : List Keypoint) : Vec2 :=
  subV (kpAt kps 5) (kpAt kps 6)

/-- `getUpperArmLine` from src/demos/demo_util.js lines 312-331: per side,
elbow − shoulder of that side. -/
noncomputable def getUpperArmLine (kps : List Keypoint) : Vec2 × Vec2 :=
  (subV (kpAt kps 7) (kpAt kps 5), subV (kpAt kps 8) (kpAt kps 6))

/-- `getWristLine` from src/demos/demo_util.js lines 342-361: per side,
wrist − shoulder of that side. -/
noncomputable def getWristLine (kps : List Keypoint) : Vec2 × Vec2 :=
  (subV (kpAt kps 9) (kpAt kps 5), subV (kpAt kps 10) (kpAt kps 6))

/-- `getArmsAngle` from src/demos/demo_util.js lines 333-340. -/
noncomputable def getArmsAngle (kps : List Keypoint) : JsVal × JsVal :=
  (calculateAngle (rotateVector (getShoulderLine kps) 90) (getUpperArmLine kps).1,
    calculateAngle (rotateVector (getShoulderLine kps) 90) (getUpperArmLine kps).2)

/-- `getWristAngle` from src/demos/demo_util.js lines 363-370. -/
noncomputable def getWristAngle (kps : List Keypoint) : JsVal × JsVal :=
  (calculateAngle (rotateVector (getShoulderLine kps) 90) (getWristLine kps).1,
    calculateAngle (rotateVector (getShoulderLine kps) 90) (getWristLine kps).2)

open Classical in
/-- `getFaceYaw` from src/demos/demo_util.js lines 252-267.  `eyeVector` is
rightEye (2) − leftEye (1); `eyeToNoseVector` is
`(nose.x − leftEye.x, eyeVector.y)` — its y-component is copied from the eye
vector.  The result is `180 − (norm(eyeToNoseVector) / norm(eyeVector)) * 180`.
When the eye norm is zero the JavaScript division produces NaN (0/0) or
+Infinity, so the returned value is NaN or −Infinity, made explicit here. -/
noncomputable def getFaceYaw (kps : List Keypoint) : JsVal :=
  let eyeVector := subV (kpAt kps 2) (kpAt kps 1)
  let eyeToNoseVector : Vec2 := (((kpAt kps 0).x : ℝ) - ((kpAt kps 1).x : ℝ), eyeVector.2)
  if normV eyeVector = 0 then (if normV eyeToNoseVector = 0 then .nan else .ninf)
  else .fin (180 - normV eyeToNoseVector / normV eyeVector * 180)

/-- Follows the spec's words, for comparison with `getFaceYaw`:
`180 − (|eyeToNose.x| / |eyeVector|) * 180` with
`eyeToNose.x = nose.x − leftEye.x` and eyeVector = rightEye − leftEye. -/
noncomputable def specFaceYaw (kps : List Keypoint) : ℝ :=
  180 - |((kpAt kps 0).x : ℝ) - ((kpAt kps 1).x : ℝ)| /
    normV (subV (kpAt kps 2) (kpAt kps 1)) * 180

/-- The `offset` constant of `poseDetectionFrame` (src/demos/camera.js 315). -/
noncomputable def offset : JsVal := .fin 30

open Classical in
/-- The left-arm sampling step of `poseDetectionFrame` (src/demos/camera.js
lines 316-323): when the arms gate reports the left side present, the value
pushed into `left_angles` is `wristAngles.left + offset` when
`angles.left < wristAngles.left` (a comparison that is false when either
angle is NaN) and `angles.left + offset` otherwise; when the gate is false
nothing is pushed. -/
noncomputable def poseDetectionFrameLeftSample (kps : List Keypoint)
    (minPartConfidence : ℚ) : Option JsVal :=
  if (existsArms kps minPartConfidence).left then
    if jsLt (getArmsAngle kps).1 (getWristAngle kps).1 then
      some (jsAdd (getWristAngle kps).1 offset)
    else
      some (jsAdd (getArmsAngle kps).1 offset)
  else none

open Classical in
/-- The right-arm sampling step of `poseDetectionFrame` (src/demos/camera.js
lines 324-331): as on the left, but the pushed value is
`180 − angle − offset`. -/
noncomputable def poseDetectionFrameRightSample (kps : List Keypoint)
    (minPartConfidence : ℚ) : Option JsVal :=
  if (existsArms kps minPartConfidence).right then
    if jsLt (getArmsAngle kps).2 (getWristAngle kps).2 then
      some (jsSub (jsSub (.fin 180) (getWristAngle kps).2) offset)
    else
      some (jsSub (jsSub (.fin 180) (getArmsAngle kps).2) offset)
  else none

/-- The face-yaw sampling step of `poseDetectionFrame` (src/demos/camera.js
lines 332-337): push `getFaceYaw` when the eyes+nose gate passes. -/
noncomputable def poseDetectionFrameYawSample (kps : List Keypoint)
    (minPartConfidence : ℚ) : Option JsVal :=
  if existsEyeAndNose kps minPartConfidence then some (getFaceYaw kps) else none

/-- Concrete keypoint list (indices 0-10): both shoulders coincide at (2, 3)
with score 1, the left elbow is at (5, 5) with score 1, every other keypoint
has score 0. -/
def kpsCoincidentShoulders : List Keypoint :=
  [⟨0, 0, 0⟩, ⟨0, 0, 0⟩, ⟨0, 0, 0⟩, ⟨0, 0, 0⟩, ⟨0, 0, 0⟩,
    ⟨2, 3, 1⟩, ⟨2, 3, 1⟩, ⟨5, 5, 1⟩, ⟨0, 0, 0⟩, ⟨0, 0, 0⟩, ⟨0, 0, 0⟩]

/-- Concrete keypoint list: shoulders at (1,0) and (0,0), left elbow (1,1),
all score 1; right elbow (0,1) and both wrists (left (0,0), right (1,0)) have
score 0, so the wrist gate fails on both sides. -/
def kpsWristLow : List Keypoint :=
  [⟨0, 0, 0⟩, ⟨0, 0, 0⟩, ⟨0, 0, 0⟩, ⟨0, 0, 0⟩, ⟨0, 0, 0⟩,
    ⟨1, 0, 1⟩, ⟨0, 0, 1⟩, ⟨1, 1, 1⟩, ⟨0, 1, 0⟩, ⟨0, 0, 0⟩, ⟨1, 0, 0⟩]

/-- Concrete keypoint list: same positions as `kpsWristLow` but every arm
keypoint has score 1. -/
def kpsBothArms : List Keypoint :=
  [⟨0, 0, 0⟩, ⟨0, 0, 0⟩, ⟨0, 0, 0⟩, ⟨0, 0, 0⟩, ⟨0, 0, 0⟩,
    ⟨1, 0, 1⟩, ⟨0, 0, 1⟩, ⟨1, 1, 1⟩, ⟨0, 1, 1⟩, ⟨0, 0, 1⟩, ⟨1, 0, 1⟩]

/-- Concrete keypoint list: nose (0, 7), left eye (0, 0), right eye (3, 4),
all with score 1 (the eyes are not level: the eye vector is (3, 4)). -/
def kpsEyesTilted : List Keypoint := [⟨0, 7, 1⟩, ⟨0, 0, 1⟩, ⟨3, 4, 1⟩]

/-- Concrete keypoint list: nose (1, 5), left eye (0, 0), right eye (2, 0),
all with score 1 (level eyes: the eye vector is (2, 0)). -/
def kpsEyesLevel : List Keypoint := [⟨1, 5, 1⟩, ⟨0, 0, 1⟩, ⟨2, 0, 1⟩]

/-! Theorems about the actuator loop and the median filter. -/

/-- Claim C1: the claim says the value driving the servo command decision is
the numeric median (ascending numeric sort).  The code's `sorted.sort()` is
the JavaScript default sort, which orders samples lexicographically by their
decimal string representations: on the buffer `[9, 10, 11]` it produces
`[10, 11, 9]` and the code returns 11 where the numeric median is 10.  The
claim's own examples `[10, 20, 30]` and `[10, 20, 30, 40]` are insensitive to
the difference and do hold. -/
theorem median_lexicographic_at_failing_input :
    median [9, 10, 11] = 11 ∧ specMedian [9, 10, 11] = 10 ∧
    median [10, 20, 30] = 20 ∧ median [10, 20, 30, 40] = 25 ∧
    (startServoTick 90 [9, 10, 11]).2.1 = some 11 := by
  have h : median [9, 10, 11] = 11 := by decide
  refine ⟨h, by decide, by decide, ?_, ?_⟩
  · show (((20 : ℤ) : ℚ) + ((30 : ℤ) : ℚ)) / 2 = 25
    norm_num
  · norm_num [startServoTick, h]

/-- Claim C3, counterexample: a tick at `current_angle = 90` on buffer `[96]`
issues the command 96, but `current_angle` (the servo's `status`) is not
updated to the commanded angle — it stays 90, because the `setInterval`
callback of `startServo` never assigns `servo.status`. -/
theorem command_does_not_update_status :
    (startServoTick 90 [96]).2.1 = some 96 ∧ (startServoTick 90 [96]).1 = 90 ∧
    (90 : ℚ) ≠ 96 := by
  have h : median [96] = 96 := by decide
  refine ⟨by norm_num [startServoTick, h], by norm_num [startServoTick, h], by norm_num⟩

/-- Claim C3, amended: on a tick with a non-empty buffer a command is issued
if and only if `|status - median| > 5`, the commanded angle being the median;
but `status` (`current_angle`) is never updated — it keeps its previous
value whether or not a command is issued. -/
theorem deadband_iff_command (s : ℚ) (angles : List ℤ) (h : angles ≠ []) :
    ((startServoTick s angles).2.1 = some (median angles) ↔ |s - median angles| > 5) ∧
    ((startServoTick s angles).2.1 = none ↔ ¬|s - median angles| > 5) ∧
    (startServoTick s angles).1 = s := by
  have hl : angles.length > 0 := List.length_pos.mpr h
  simp only [startServoTick, if_pos hl]
  by_cases hd : |s - median angles| > 5
  · rw [if_pos hd]; simp [hd]
  · rw [if_neg hd]; simp [hd]

/-- Claim C3, witness: with `current_angle = 90` a median of 93 issues no
command and a median of 96 issues the command 96 while `status` stays 90. -/
theorem deadband_iff_command_witness :
    (startServoTick 90 [93]).2.1 = none ∧ (startServoTick 90 [96]).2.1 = some 96 ∧
    (startServoTick 90 [96]).1 = 90 := by
  have h93 := deadband_iff_command 90 [93] (by decide)
  have h96 := deadband_iff_command 90 [96] (by decide)
  have m93 : median [93] = 93 := by decide
  have m96 : median [96] = 96 := by decide
  refine ⟨h93.2.1.mpr (by rw [m93]; norm_num), ?_, h96.2.2⟩
  rw [← m96]
  exact h96.1.mpr (by rw [m96]; norm_num)

/-- Claim C4, counterexample: the actuator loop commands the raw median with
no clamping — a buffer holding `[-10]` (reachable, the right-arm mapping
`180 - angle - 30` goes below zero) makes the tick command −10, outside
[0, 180]. -/
theorem command_not_clamped :
    (startServoTick 90 [-10]).2.1 = some (-10) ∧ ¬(0 : ℚ) ≤ -10 := by
  have h : median [-10] = -10 := by decide
  exact ⟨by norm_num [startServoTick, h], by norm_num⟩

/-- Claim C4, amended: no clamping is performed anywhere.  Whenever the
actuator tick issues a command, the commanded angle is exactly the median,
even when that lies outside [0, 180]; and the unused `moveServoTo` rejects an
out-of-range target (returns without commanding anything) rather than
clamping it. -/
theorem command_equals_median_unclamped (s : ℚ) (angles : List ℤ) (s' : ℤ) (tgt : ℚ)
    (h : angles ≠ []) (htgt : tgt < 0 ∨ 180 < tgt) :
    (∀ m, (startServoTick s angles).2.1 = some m → m = median angles) ∧
    moveServoTo s' tgt = ([], s') := by
  constructor
  · intro m hm
    have hl : angles.length > 0 := List.length_pos.mpr h
    simp only [startServoTick, if_pos hl] at hm
    by_cases hd : |s - median angles| > 5
    · rw [if_pos hd] at hm
      simpa using hm.symm
    · rw [if_neg hd] at hm
      simp at hm
  · simp only [moveServoTo, if_pos htgt]

/-- Claim C4, witness: the tick on buffer `[-10]` commands exactly the median
−10 (no clamp applied), and `moveServoTo` with target −10 issues nothing. -/
theorem command_equals_median_unclamped_witness :
    ((-10 : ℚ) = median [-10]) ∧ moveServoTo 90 (-10) = ([], 90) := by
  have h := command_equals_median_unclamped 90 [-10] 90 (-10) (by decide) (by norm_num)
  have hm : median [-10] = -10 := by decide
  exact ⟨h.1 (-10) (by norm_num [startServoTick, hm]), h.2⟩

/-- Claim C10: buffer draining is exactly-once.  A tick on a non-empty buffer
leaves the buffer empty, a subsequent tick on the resulting state issues no
command, and any command issued carries the median of the full buffered
contents. -/
theorem drain_exactly_once (s : ℚ) (angles : List ℤ) (h : angles ≠ []) :
    (startServoTick s angles).2.2 = [] ∧
    (startServoTick (startServoTick s angles).1 (startServoTick s angles).2.2).2.1 = none ∧
    ((startServoTick s angles).2.1 = none ∨
      (startServoTick s angles).2.1 = some (median angles)) := by
  have hl : angles.length > 0 := List.length_pos.mpr h
  have hbuf : (startServoTick s angles).2.2 = [] := by
    simp only [startServoTick, if_pos hl]
    by_cases hd : |s - median angles| > 5
    · rw [if_pos hd]
    · rw [if_neg hd]
  refine ⟨hbuf, by rw [hbuf]; simp [startServoTick], ?_⟩
  simp only [startServoTick, if_pos hl]
  by_cases hd : |s - median angles| > 5
  · rw [if_pos hd]; right; rfl
  · rw [if_neg hd]; left; rfl

/-- Claim C10, witness: appending the 5 samples `[1, 2, 3, 4, 5]` and draining
yields their median 3 as the command, leaves the buffer empty, and a second
drain with no intervening append issues no command. -/
theorem drain_exactly_once_witness :
    (startServoTick 90 [1, 2, 3, 4, 5]).2.2 = [] ∧
    (startServoTick (startServoTick 90 [1, 2, 3, 4, 5]).1
      (startServoTick 90 [1, 2, 3, 4, 5]).2.2).2.1 = none ∧
    (startServoTick 90 [1, 2, 3, 4, 5]).2.1 = some 3 ∧ median [1, 2, 3, 4, 5] = 3 := by
  have h := drain_exactly_once 90 [1, 2, 3, 4, 5] (by decide)
  have hm : median [1, 2, 3, 4, 5] = 3 := by decide
  exact ⟨h.1, h.2.1, by norm_num [startServoTick, hm], hm⟩

/-! Theorems about the keypoint availability gates. -/

/-- Claim C8: the arms gate reports `left = true` exactly when the
left-shoulder (5), right-shoulder (6) and left-elbow (7) scores are all
strictly above the threshold, and `right = true` exactly when the two
shoulder scores and the right-elbow (8) score are; so any required keypoint
at or below the threshold forces `false` for that side. -/
theorem existsArms_left_right_iff (kps : List Keypoint) (t : ℚ) :
    ((existsArms kps t).left = true ↔
      (kpAt kps 5).score > t ∧ (kpAt kps 6).score > t ∧ (kpAt kps 7).score > t) ∧
    ((existsArms kps t).right = true ↔
      (kpAt kps 5).score > t ∧ (kpAt kps 6).score > t ∧ (kpAt kps 8).score > t) := by
  unfold existsArms
  split_ifs with h1 h2 h3 <;> simp_all

/-! Theorems about the pose selector. -/

/-- Unfolding equation for one selection step, phrased with `bboxArea`. -/
lemma selectStep_eq (acc : ℚ × Option Pose) (p : Pose) :
    selectStep acc p = if bboxArea p > acc.1 then (bboxArea p, some p) else acc := rfl

/-- Characterization of the largest-pose loop from any accumulator: either no
pose beat the running maximum (the accumulator survives and every area is at
most the running maximum), or the result is the first pose that strictly
exceeds every area before it and is not exceeded by any area after it. -/
lemma selectStep_foldl_char (l : List Pose) (s : ℚ) (o : Option Pose) :
    (l.foldl selectStep (s, o) = (s, o) ∧ ∀ q ∈ l, bboxArea q ≤ s) ∨
    (∃ l1 p l2, l = l1 ++ p :: l2 ∧ l.foldl selectStep (s, o) = (bboxArea p, some p) ∧
      s < bboxArea p ∧ (∀ q ∈ l1, bboxArea q < bboxArea p) ∧
      (∀ q ∈ l2, bboxArea q ≤ bboxArea p)) := by
  induction l generalizing s o with
  | nil => exact Or.inl ⟨rfl, by simp⟩
  | cons q l ih =>
    rw [List.foldl_cons, selectStep_eq]
    by_cases hq : bboxArea q > s
    · rw [if_pos hq]
      rcases ih (bboxArea q) (some q) with ⟨heq, hall⟩ | ⟨l1, p, l2, hsplit, heq, hlt, h1, h2⟩
      · exact Or.inr ⟨[], q, l, by simp, heq, hq, by simp, hall⟩
      · refine Or.inr ⟨q :: l1, p, l2, by simp [hsplit], heq, hq.trans hlt, ?_, h2⟩
        intro r hr
        rcases List.mem_cons.mp hr with rfl | hr
        · exact hlt
        · exact h1 r hr
    · rw [if_neg hq]
      push_neg at hq
      rcases ih s o with ⟨heq, hall⟩ | ⟨l1, p, l2, hsplit, heq, hlt, h1, h2⟩
      · refine Or.inl ⟨heq, ?_⟩
        intro r hr
        rcases List.mem_cons.mp hr with rfl | hr
        · exact hq
        · exact hall r hr
      · refine Or.inr ⟨q :: l1, p, l2, by simp [hsplit], heq, hlt, ?_, h2⟩
        intro r hr
        rcases List.mem_cons.mp hr with rfl | hr
        · exact lt_of_le_of_lt hq hlt
        · exact h1 r hr

/-- Claim C7, counterexample: a single pose whose keypoints all coincide has
bounding-box area 0; it passes the confidence filter, yet the selection loop
(seeded with `maxSize = 0` and a strict comparison) selects nothing, although
the claim says a pose is selected whenever some pose meets the confidence
threshold. -/
theorem zero_area_pose_not_selected :
    (1 : ℚ) / 10 ≤ (Pose.mk 1 [⟨0, 0, 1⟩, ⟨0, 0, 1⟩]).score ∧
    confidentPoses [Pose.mk 1 [⟨0, 0, 1⟩, ⟨0, 0, 1⟩]] (1 / 10) =
      [Pose.mk 1 [⟨0, 0, 1⟩, ⟨0, 0, 1⟩]] ∧
    selectMaxPose (confidentPoses [Pose.mk 1 [⟨0, 0, 1⟩, ⟨0, 0, 1⟩]] (1 / 10)) = none := by
  have e0 : bboxArea (Pose.mk 1 [⟨0, 0, 1⟩, ⟨0, 0, 1⟩]) = 0 := by
    show (max 0 0 - min 0 0) * (max 0 0 - min 0 0) = (0 : ℚ)
    norm_num
  have hfilter : confidentPoses [Pose.mk 1 [⟨0, 0, 1⟩, ⟨0, 0, 1⟩]] (1 / 10) =
      [Pose.mk 1 [⟨0, 0, 1⟩, ⟨0, 0, 1⟩]] := by
    simp only [confidentPoses, List.filter_cons, List.filter_nil]
    rw [if_pos (by simp only [decide_eq_true_eq]; norm_num)]
  refine ⟨by norm_num, hfilter, ?_⟩
  rw [hfilter]
  simp only [selectMaxPose, List.foldl_cons, List.foldl_nil, selectStep_eq, e0]
  norm_num

/-- Claim C7, amended: among the poses meeting the confidence threshold the
first pose whose bounding-box area strictly exceeds every earlier confident
pose's area and is not exceeded later is selected, provided that area is
strictly positive (the running maximum starts at 0); when no confident pose
has positive area — in particular when no pose meets the threshold — nothing
is selected and no samples are appended. -/
theorem selector_first_strict_max_positive (poses : List Pose) (minC : ℚ) :
    (∀ p, selectMaxPose (confidentPoses poses minC) = some p →
      0 < bboxArea p ∧ p ∈ confidentPoses poses minC ∧
      (∀ q ∈ confidentPoses poses minC, bboxArea q ≤ bboxArea p) ∧
      ∃ l1 l2, confidentPoses poses minC = l1 ++ p :: l2 ∧
        (∀ q ∈ l1, bboxArea q < bboxArea p)) ∧
    (selectMaxPose (confidentPoses poses minC) = none →
      ∀ q ∈ confidentPoses poses minC, bboxArea q ≤ 0) := by
  constructor
  · intro p hp
    rcases selectStep_foldl_char (confidentPoses poses minC) 0 none with
      ⟨heq, _⟩ | ⟨l1, r, l2, hsplit, heq, hlt, h1, h2⟩
    · rw [selectMaxPose, heq] at hp
      exact absurd hp (by simp)
    · rw [selectMaxPose, heq] at hp
      obtain rfl : r = p := by simpa using hp
      refine ⟨hlt, by rw [hsplit]; simp, ?_, l1, l2, hsplit, h1⟩
      intro q hq
      rw [hsplit] at hq
      rcases List.mem_append.mp hq with hq | hq
      · exact le_of_lt (h1 q hq)
      · rcases List.mem_cons.mp hq with rfl | hq
        · exact le_refl _
        · exact h2 q hq
  · intro hnone q hq
    rcases selectStep_foldl_char (confidentPoses poses minC) 0 none with
      ⟨_, hall⟩ | ⟨l1, r, l2, _, heq, _, _, _⟩
    · exact hall q hq
    · rw [selectMaxPose, heq] at hnone
      exact absurd hnone (by simp)

/-- Claim C7, witness: between two confident poses of bounding-box areas 100
and 250, the 250-area pose is selected, and the characterization applies to
it: its area is positive and maximal among the confident poses. -/
theorem selector_first_strict_max_positive_witness :
    0 < bboxArea (Pose.mk 1 [⟨0, 0, 1⟩, ⟨25, 10, 1⟩]) ∧
    (∀ q ∈ confidentPoses
        [Pose.mk 1 [⟨0, 0, 1⟩, ⟨10, 10, 1⟩], Pose.mk 1 [⟨0, 0, 1⟩, ⟨25, 10, 1⟩]] (1 / 10),
      bboxArea q ≤ bboxArea (Pose.mk 1 [⟨0, 0, 1⟩, ⟨25, 10, 1⟩])) ∧
    bboxArea (Pose.mk 1 [⟨0, 0, 1⟩, ⟨25, 10, 1⟩]) = 250 := by
  have e1 : bboxArea (Pose.mk 1 [⟨0, 0, 1⟩, ⟨10, 10, 1⟩]) = 100 := by
    show (max 0 10 - min 0 10) * (max 0 10 - min 0 10) = (100 : ℚ)
    norm_num
  have e2 : bboxArea (Pose.mk 1 [⟨0, 0, 1⟩, ⟨25, 10, 1⟩]) = 250 := by
    show (max 0 25 - min 0 25) * (max 0 10 - min 0 10) = (250 : ℚ)
    norm_num
  have hfilter : confidentPoses
      [Pose.mk 1 [⟨0, 0, 1⟩, ⟨10, 10, 1⟩], Pose.mk 1 [⟨0, 0, 1⟩, ⟨25, 10, 1⟩]] (1 / 10) =
      [Pose.mk 1 [⟨0, 0, 1⟩, ⟨10, 10, 1⟩], Pose.mk 1 [⟨0, 0, 1⟩, ⟨25, 10, 1⟩]] := by
    simp only [confidentPoses, List.filter_cons, List.filter_nil]
    rw [if_pos (by simp only [decide_eq_true_eq]; norm_num),
      if_pos (by simp only [decide_eq_true_eq]; norm_num)]
  have hsel : selectMaxPose (confidentPoses
      [Pose.mk 1 [⟨0, 0, 1⟩, ⟨10, 10, 1⟩], Pose.mk 1 [⟨0, 0, 1⟩, ⟨25, 10, 1⟩]] (1 / 10)) =
      some (Pose.mk 1 [⟨0, 0, 1⟩, ⟨25, 10, 1⟩]) := by
    rw [hfilter]
    simp only [selectMaxPose, List.foldl_cons, List.foldl_nil, selectStep_eq, e1, e2]
    norm_num
  have h := (selector_first_strict_max_positive
    [Pose.mk 1 [⟨0, 0, 1⟩, ⟨10, 10, 1⟩], Pose.mk 1 [⟨0, 0, 1⟩, ⟨25, 10, 1⟩]] (1 / 10)).1
    (Pose.mk 1 [⟨0, 0, 1⟩, ⟨25, 10, 1⟩]) hsel
  exact ⟨h.1, h.2.2.1, e2⟩

/-! Helper lemmas for evaluating the geometry at concrete inputs. -/

/-- Rotating by 90 degrees sends `(x, y)` to `(-y, x)` (exactly, in real
arithmetic). -/
lemma rotateVector_ninety (v : Vec2) : rotateVector v 90 = (-v.2, v.1) := by
  unfold rotateVector
  rw [show (90 : ℝ) * (Real.pi / 180) = Real.pi / 2 by ring,
    Real.cos_pi_div_two, Real.sin_pi_div_two]
  simp only [Prod.mk.injEq]
  constructor <;> ring

/-- Norm evaluation through a known square. -/
lemma normV_sq (a b c : ℝ) (hc : 0 ≤ c) (h : a * a + b * b = c ^ 2) :
    normV (a, b) = c := by
  show Real.sqrt (a * a + b * b) = c
  rw [h, Real.sqrt_sq hc]

/-- The norm of the zero vector is 0. -/
lemma normV_zero_vec : normV ((0 : ℝ), 0) = 0 := by
  simpa using normV_sq 0 0 0 le_rfl (by ring)

/-- `calculateAngle` yields NaN whenever the first vector has norm 0 (the
JavaScript division by zero). -/
lemma calculateAngle_nan_of_left {a : Vec2} (ha : normV a = 0) (b : Vec2) :
    calculateAngle a b = .nan := by
  unfold calculateAngle
  rw [if_pos (by rw [ha, zero_mul])]

/-- `calculateAngle` on vectors of nonzero norm is the finite angle. -/
lemma calculateAngle_fin {a b : Vec2} (ha : normV a ≠ 0) (hb : normV b ≠ 0) :
    calculateAngle a b =
      .fin (Real.arccos ((a.1 * b.1 + a.2 * b.2) / (normV a * normV b)) *
        180 / Real.pi) := by
  unfold calculateAngle
  rw [if_neg (mul_ne_zero ha hb)]

/-- The angle between `(0,1)` and itself is 0. -/
lemma calculateAngle_up_up : calculateAngle ((0 : ℝ), 1) ((0 : ℝ), 1) = .fin 0 := by
  have h1 : normV ((0 : ℝ), 1) = 1 := normV_sq 0 1 1 (by norm_num) (by norm_num)
  rw [calculateAngle_fin (by rw [h1]; norm_num) (by rw [h1]; norm_num), h1]
  norm_num [Real.arccos_one]

/-- The angle between `(0,1)` and `(-1,0)` is 90. -/
lemma calculateAngle_up_left : calculateAngle ((0 : ℝ), 1) ((-1 : ℝ), 0) = .fin 90 := by
  have h1 : normV ((0 : ℝ), 1) = 1 := normV_sq 0 1 1 (by norm_num) (by norm_num)
  have h2 : normV ((-1 : ℝ), 0) = 1 := normV_sq (-1) 0 1 (by norm_num) (by norm_num)
  rw [calculateAngle_fin (by rw [h1]; norm_num) (by rw [h2]; norm_num), h1, h2]
  simp only [JsVal.fin.injEq]
  norm_num [Real.arccos_zero]
  field_simp
  ring

/-- The angle between `(0,1)` and `(1,0)` is 90. -/
lemma calculateAngle_up_right : calculateAngle ((0 : ℝ), 1) ((1 : ℝ), 0) = .fin 90 := by
  have h1 : normV ((0 : ℝ), 1) = 1 := normV_sq 0 1 1 (by norm_num) (by norm_num)
  have h2 : normV ((1 : ℝ), 0) = 1 := normV_sq 1 0 1 (by norm_num) (by norm_num)
  rw [calculateAngle_fin (by rw [h1]; norm_num) (by rw [h2]; norm_num), h1, h2]
  simp only [JsVal.fin.injEq]
  norm_num [Real.arccos_zero]
  field_simp
  ring

/-- No JavaScript comparison with NaN on the left holds. -/
lemma jsLt_nan_left (v : JsVal) : ¬jsLt .nan v := by
  cases v <;> simp [jsLt]

/-- Claim C2 (failing input): with the two shoulder keypoints coincident at
(2,3) and the arms gate passing for the left side, the shoulder line is the
zero vector; `calculateAngle` divides by the zero norm with no prior
detection, and the resulting NaN sample is pushed into the left-arm buffer —
the claim says such a frame must produce no sample. -/
theorem nan_sample_pushed_on_zero_shoulder_line :
    (existsArms kpsCoincidentShoulders 0).left = true ∧
    poseDetectionFrameLeftSample kpsCoincidentShoulders 0 = some .nan := by
  have hgate : (existsArms kpsCoincidentShoulders 0).left = true := by decide
  have hsl : getShoulderLine kpsCoincidentShoulders = ((0 : ℝ), 0) := by
    show ((((2 : ℚ) : ℝ)) - (((2 : ℚ) : ℝ)), (((3 : ℚ) : ℝ)) - (((3 : ℚ) : ℝ))) =
      ((0 : ℝ), 0)
    norm_num
  have harm : (getArmsAngle kpsCoincidentShoulders).1 = .nan := by
    show calculateAngle (rotateVector (getShoulderLine kpsCoincidentShoulders) 90)
      (getUpperArmLine kpsCoincidentShoulders).1 = .nan
    rw [hsl, rotateVector_ninety]
    exact calculateAngle_nan_of_left (by simpa using normV_zero_vec) _
  refine ⟨hgate, ?_⟩
  unfold poseDetectionFrameLeftSample
  rw [if_pos hgate, harm, if_neg (jsLt_nan_left _)]
  rfl

/-- Claim C5, counterexample: with left eye (0,0), right eye (3,4) and
nose x-coordinate 0, the eyes+nose gate passes; the code returns
`180 − (‖(0,4)‖/‖(3,4)‖)·180 = 36` because the eye-to-nose vector reuses the
eye vector's y-component, while the claim's formula
`180 − (|eyeToNose.x|/|eyeVector|)·180` gives 180. -/
theorem faceYaw_uses_eye_y_component :
    existsEyeAndNose kpsEyesTilted 0 = true ∧
    getFaceYaw kpsEyesTilted = .fin 36 ∧
    specFaceYaw kpsEyesTilted = 180 ∧ (36 : ℝ) ≠ 180 := by
  have hvec : subV (kpAt kpsEyesTilted 2) (kpAt kpsEyesTilted 1) = ((3 : ℝ), 4) := by
    show ((((3 : ℚ) : ℝ)) - (((0 : ℚ) : ℝ)), (((4 : ℚ) : ℝ)) - (((0 : ℚ) : ℝ))) =
      ((3 : ℝ), 4)
    norm_num
  have hE : normV (subV (kpAt kpsEyesTilted 2) (kpAt kpsEyesTilted 1)) = 5 := by
    rw [hvec]
    exact normV_sq 3 4 5 (by norm_num) (by norm_num)
  have hdx : ((kpAt kpsEyesTilted 0).x : ℝ) - ((kpAt kpsEyesTilted 1).x : ℝ) = 0 := by
    show (((0 : ℚ) : ℝ)) - (((0 : ℚ) : ℝ)) = 0
    norm_num
  have hyaw : getFaceYaw kpsEyesTilted = .fin 36 := by
    simp only [getFaceYaw]
    rw [if_neg (by rw [hE]; norm_num)]
    rw [show (((kpAt kpsEyesTilted 0).x : ℝ) - ((kpAt kpsEyesTilted 1).x : ℝ),
        (subV (kpAt kpsEyesTilted 2) (kpAt kpsEyesTilted 1)).2) = ((0 : ℝ), 4) by
      rw [hvec, hdx]]
    rw [hE, normV_sq 0 4 4 (by norm_num) (by norm_num)]
    norm_num
  have hspec : specFaceYaw kpsEyesTilted = 180 := by
    unfold specFaceYaw
    rw [hE, hdx]
    norm_num
  exact ⟨by decide, hyaw, hspec, by norm_num⟩

/-- Claim C5, amended: the code's eye-to-nose vector is
`(nose.x − leftEye.x, eyeVector.y)` — the y-component is copied from the eye
vector rather than zero — so the face-yaw sample equals the claimed
`180 − (|eyeToNose.x| / |eyeVector|)·180` exactly when the two eyes are level
(equal y-coordinates) and distinct. -/
theorem faceYaw_matches_spec_when_eyes_level (kps : List Keypoint) (t : ℚ)
    (_hgate : existsEyeAndNose kps t = true)
    (hy : (kpAt kps 2).y = (kpAt kps 1).y)
    (hx : (kpAt kps 2).x ≠ (kpAt kps 1).x) :
    getFaceYaw kps = .fin (specFaceYaw kps) := by
  have hy0 : ((kpAt kps 2).y : ℝ) - ((kpAt kps 1).y : ℝ) = 0 := by
    rw [hy, sub_self]
  have hvec : subV (kpAt kps 2) (kpAt kps 1) =
      (((kpAt kps 2).x : ℝ) - ((kpAt kps 1).x : ℝ), 0) := by
    unfold subV
    rw [hy0]
  have hexne : ((kpAt kps 2).x : ℝ) - ((kpAt kps 1).x : ℝ) ≠ 0 := by
    intro h
    exact hx (by exact_mod_cast sub_eq_zero.mp h)
  have hEn : normV (subV (kpAt kps 2) (kpAt kps 1)) =
      |((kpAt kps 2).x : ℝ) - ((kpAt kps 1).x : ℝ)| := by
    rw [hvec]
    show Real.sqrt ((((kpAt kps 2).x : ℝ) - ((kpAt kps 1).x : ℝ)) *
      (((kpAt kps 2).x : ℝ) - ((kpAt kps 1).x : ℝ)) + 0 * 0) = _
    rw [show (((kpAt kps 2).x : ℝ) - ((kpAt kps 1).x : ℝ)) *
      (((kpAt kps 2).x : ℝ) - ((kpAt kps 1).x : ℝ)) + 0 * 0 =
      (((kpAt kps 2).x : ℝ) - ((kpAt kps 1).x : ℝ)) ^ 2 by ring, Real.sqrt_sq_eq_abs]
  have hEnne : normV (subV (kpAt kps 2) (kpAt kps 1)) ≠ 0 := by
    rw [hEn]
    exact abs_ne_zero.mpr hexne
  have hNn : normV (((kpAt kps 0).x : ℝ) - ((kpAt kps 1).x : ℝ),
      (subV (kpAt kps 2) (kpAt kps 1)).2) =
      |((kpAt kps 0).x : ℝ) - ((kpAt kps 1).x : ℝ)| := by
    rw [hvec]
    show Real.sqrt ((((kpAt kps 0).x : ℝ) - ((kpAt kps 1).x : ℝ)) *
      (((kpAt kps 0).x : ℝ) - ((kpAt kps 1).x : ℝ)) + 0 * 0) = _
    rw [show (((kpAt kps 0).x : ℝ) - ((kpAt kps 1).x : ℝ)) *
      (((kpAt kps 0).x : ℝ) - ((kpAt kps 1).x : ℝ)) + 0 * 0 =
      (((kpAt kps 0).x : ℝ) - ((kpAt kps 1).x : ℝ)) ^ 2 by ring, Real.sqrt_sq_eq_abs]
  simp only [getFaceYaw, specFaceYaw]
  rw [if_neg hEnne, hNn, hEn]

/-- Claim C5, witness: with level distinct eyes (0,0) and (2,0) and nose x 1,
the gate passes and the code's face yaw agrees with the claimed formula; both
equal 90. -/
theorem faceYaw_matches_spec_when_eyes_level_witness :
    getFaceYaw kpsEyesLevel = .fin (specFaceYaw kpsEyesLevel) ∧
    specFaceYaw kpsEyesLevel = 90 := by
  refine ⟨faceYaw_matches_spec_when_eyes_level kpsEyesLevel 0 (by decide) (by decide)
    (by decide), ?_⟩
  have hE : normV (subV (kpAt kpsEyesLevel 2) (kpAt kpsEyesLevel 1)) = 2 := by
    rw [show subV (kpAt kpsEyesLevel 2) (kpAt kpsEyesLevel 1) = ((2 : ℝ), 0) by
      show ((((2 : ℚ) : ℝ)) - (((0 : ℚ) : ℝ)), (((0 : ℚ) : ℝ)) - (((0 : ℚ) : ℝ))) =
        ((2 : ℝ), 0)
      norm_num]
    exact normV_sq 2 0 2 (by norm_num) (by norm_num)
  unfold specFaceYaw
  rw [hE, show ((kpAt kpsEyesLevel 0).x : ℝ) - ((kpAt kpsEyesLevel 1).x : ℝ) = 1 by
    show (((1 : ℚ) : ℝ)) - (((0 : ℚ) : ℝ)) = 1
    norm_num]
  norm_num

/-- Claim C6, counterexample: on `kpsWristLow` the wrist gate (`existWritst`)
reports the left side absent (left-wrist score 0), yet the arms gate passes
and the sample pushed for the left arm is `90 + 30` — formed from the wrist
angle (90), not the arm angle (0).  The wrist gate is never consulted by the
frame loop. -/
theorem wrist_gate_not_consulted :
    (existWritst kpsWristLow 0).left = false ∧
    (existsArms kpsWristLow 0).left = true ∧
    (getArmsAngle kpsWristLow).1 = .fin 0 ∧
    (getWristAngle kpsWristLow).1 = .fin 90 ∧
    poseDetectionFrameLeftSample kpsWristLow 0 = some (.fin (90 + 30)) ∧
    (90 : ℝ) + 30 ≠ 0 + 30 := by
  have hgate : (existsArms kpsWristLow 0).left = true := by decide
  have hsl : getShoulderLine kpsWristLow = ((1 : ℝ), 0) := by
    show ((((1 : ℚ) : ℝ)) - (((0 : ℚ) : ℝ)), (((0 : ℚ) : ℝ)) - (((0 : ℚ) : ℝ))) =
      ((1 : ℝ), 0)
    norm_num
  have hrot : rotateVector (getShoulderLine kpsWristLow) 90 = ((0 : ℝ), 1) := by
    rw [hsl, rotateVector_ninety]
    norm_num
  have hupL : (getUpperArmLine kpsWristLow).1 = ((0 : ℝ), 1) := by
    show ((((1 : ℚ) : ℝ)) - (((1 : ℚ) : ℝ)), (((1 : ℚ) : ℝ)) - (((0 : ℚ) : ℝ))) =
      ((0 : ℝ), 1)
    norm_num
  have harmL : (getArmsAngle kpsWristLow).1 = .fin 0 := by
    show calculateAngle (rotateVector (getShoulderLine kpsWristLow) 90)
      (getUpperArmLine kpsWristLow).1 = .fin 0
    rw [hrot, hupL]
    exact calculateAngle_up_up
  have hwrL : (getWristLine kpsWristLow).1 = ((-1 : ℝ), 0) := by
    show ((((0 : ℚ) : ℝ)) - (((1 : ℚ) : ℝ)), (((0 : ℚ) : ℝ)) - (((0 : ℚ) : ℝ))) =
      ((-1 : ℝ), 0)
    norm_num
  have hwangL : (getWristAngle kpsWristLow).1 = .fin 90 := by
    show calculateAngle (rotateVector (getShoulderLine kpsWristLow) 90)
      (getWristLine kpsWristLow).1 = .fin 90
    rw [hrot, hwrL]
    exact calculateAngle_up_left
  refine ⟨by decide, hgate, harmL, hwangL, ?_, by norm_num⟩
  unfold poseDetectionFrameLeftSample
  rw [if_pos hgate, harmL, hwangL,
    if_pos (show jsLt (JsVal.fin 0) (JsVal.fin 90) from by show (0 : ℝ) < 90; norm_num)]
  rfl

/-- Claim C6, amended: per-signal gating does hold — a left-arm (resp.
right-arm, face-yaw) sample is withheld exactly when the arms gate's left
(resp. right, eyes+nose) result is false — but the wrist gate plays no role:
the wrist angle participates whenever the arms gate passes (see the
counterexample). -/
theorem samples_gated_per_signal (kps : List Keypoint) (t : ℚ) :
    (poseDetectionFrameLeftSample kps t = none ↔ (existsArms kps t).left = false) ∧
    (poseDetectionFrameRightSample kps t = none ↔ (existsArms kps t).right = false) ∧
    (poseDetectionFrameYawSample kps t = none ↔ existsEyeAndNose kps t = false) := by
  refine ⟨?_, ?_, ?_⟩
  · unfold poseDetectionFrameLeftSample
    cases hb : (existsArms kps t).left
    · simp
    · rw [if_pos rfl]
      split <;> simp
  · unfold poseDetectionFrameRightSample
    cases hb : (existsArms kps t).right
    · simp
    · rw [if_pos rfl]
      split <;> simp
  · unfold poseDetectionFrameYawSample
    cases hb : existsEyeAndNose kps t <;> simp

/-- Claim C9: whenever the arms gate reports a side present and that side's
arm and wrist angles are finite, the pushed raw sample is built from the
larger of the two angles — the wrist angle replaces the arm angle exactly
when strictly greater (the JavaScript `<`) — then mapped through the side's
offset: left `value + 30`, right `180 − value − 30`. -/
theorem arm_sample_uses_larger_angle (kps : List Keypoint) (t : ℚ) (a w a2 w2 : ℝ)
    (haL : (getArmsAngle kps).1 = .fin a) (hwL : (getWristAngle kps).1 = .fin w)
    (haR : (getArmsAngle kps).2 = .fin a2) (hwR : (getWristAngle kps).2 = .fin w2) :
    ((existsArms kps t).left = true →
      poseDetectionFrameLeftSample kps t = some (.fin (max a w + 30))) ∧
    ((existsArms kps t).right = true →
      poseDetectionFrameRightSample kps t = some (.fin (180 - max a2 w2 - 30))) := by
  constructor
  · intro hg
    unfold poseDetectionFrameLeftSample
    rw [if_pos hg, haL, hwL]
    by_cases hlt : a < w
    · rw [if_pos (show jsLt (JsVal.fin a) (JsVal.fin w) from hlt),
        max_eq_right (le_of_lt hlt)]
      rfl
    · rw [if_neg (show ¬jsLt (JsVal.fin a) (JsVal.fin w) from hlt),
        max_eq_left (not_lt.mp hlt)]
      rfl
  · intro hg
    unfold poseDetectionFrameRightSample
    rw [if_pos hg, haR, hwR]
    by_cases hlt : a2 < w2
    · rw [if_pos (show jsLt (JsVal.fin a2) (JsVal.fin w2) from hlt),
        max_eq_right (le_of_lt hlt)]
      rfl
    · rw [if_neg (show ¬jsLt (JsVal.fin a2) (JsVal.fin w2) from hlt),
        max_eq_left (not_lt.mp hlt)]
      rfl

/-- Claim C9, witness: on `kpsBothArms` both gates pass, the arm angles are 0
and the wrist angles 90 on both sides; the left sample is
`max 0 90 + 30 = 120` and the right sample `180 − max 0 90 − 30 = 60`. -/
theorem arm_sample_uses_larger_angle_witness :
    poseDetectionFrameLeftSample kpsBothArms 0 = some (.fin 120) ∧
    poseDetectionFrameRightSample kpsBothArms 0 = some (.fin 60) := by
  have hsl : getShoulderLine kpsBothArms = ((1 : ℝ), 0) := by
    show ((((1 : ℚ) : ℝ)) - (((0 : ℚ) : ℝ)), (((0 : ℚ) : ℝ)) - (((0 : ℚ) : ℝ))) =
      ((1 : ℝ), 0)
    norm_num
  have hrot : rotateVector (getShoulderLine kpsBothArms) 90 = ((0 : ℝ), 1) := by
    rw [hsl, rotateVector_ninety]
    norm_num
  have hupL : (getUpperArmLine kpsBothArms).1 = ((0 : ℝ), 1) := by
    show ((((1 : ℚ) : ℝ)) - (((1 : ℚ) : ℝ)), (((1 : ℚ) : ℝ)) - (((0 : ℚ) : ℝ))) =
      ((0 : ℝ), 1)
    norm_num
  have hupR : (getUpperArmLine kpsBothArms).2 = ((0 : ℝ), 1) := by
    show ((((0 : ℚ) : ℝ)) - (((0 : ℚ) : ℝ)), (((1 : ℚ) : ℝ)) - (((0 : ℚ) : ℝ))) =
      ((0 : ℝ), 1)
    norm_num
  have hwrL : (getWristLine kpsBothArms).1 = ((-1 : ℝ), 0) := by
    show ((((0 : ℚ) : ℝ)) - (((1 : ℚ) : ℝ)), (((0 : ℚ) : ℝ)) - (((0 : ℚ) : ℝ))) =
      ((-1 : ℝ), 0)
    norm_num
  have hwrR : (getWristLine kpsBothArms).2 = ((1 : ℝ), 0) := by
    show ((((1 : ℚ) : ℝ)) - (((0 : ℚ) : ℝ)), (((0 : ℚ) : ℝ)) - (((0 : ℚ) : ℝ))) =
      ((1 : ℝ), 0)
    norm_num
  have harmL : (getArmsAngle kpsBothArms).1 = .fin 0 := by
    show calculateAngle (rotateVector (getShoulderLine kpsBothArms) 90)
      (getUpperArmLine kpsBothArms).1 = .fin 0
    rw [hrot, hupL]
    exact calculateAngle_up_up
  have harmR : (getArmsAngle kpsBothArms).2 = .fin 0 := by
    show calculateAngle (rotateVector (getShoulderLine kpsBothArms) 90)
      (getUpperArmLine kpsBothArms).2 = .fin 0
    rw [hrot, hupR]
    exact calculateAngle_up_up
  have hwangL : (getWristAngle kpsBothArms).1 = .fin 90 := by
    show calculateAngle (rotateVector (getShoulderLine kpsBothArms) 90)
      (getWristLine kpsBothArms).1 = .fin 90
    rw [hrot, hwrL]
    exact calculateAngle_up_left
  have hwangR : (getWristAngle kpsBothArms).2 = .fin 90 := by
    show calculateAngle (rotateVector (getShoulderLine kpsBothArms) 90)
      (getWristLine kpsBothArms).2 = .fin 90
    rw [hrot, hwrR]
    exact calculateAngle_up_right
  have h := arm_sample_uses_larger_angle kpsBothArms 0 0 90 0 90 harmL hwangL harmR hwangR
  constructor
  · rw [h.1 (by decide), show max (0 : ℝ) 90 = 90 from max_eq_right (by norm_num)]
    norm_num
  · rw [h.2 (by decide), show max (0 : ℝ) 90 = 90 from max_eq_right (by norm_num)]
    norm_num
